import Mathlib

/-!
Shallow embedding of `src/board/system76/common/battery.c` (System76 EC
battery charging policy core) and verification of its specification.

The charger hardware and battery are reached through an SMBus transport;
the transport itself and the bounded-integer config store live outside
this file's source and are modelled from their specified interfaces.
Every bus transaction is recorded in an event trace so that ordering and
"no further writes" properties can be stated.
-/

namespace Battery

/-- One bus transaction: a write of a 16-bit value to (address, command),
or a read at (address, command). -/
inductive BusEv where
  | write (addr cmd value : Nat)
  | read (addr cmd : Nat)
deriving DecidableEq

/-- Modelled from the spec: the configuration-value store's bounded-integer
setting (`struct config_value` of `common/config.h`, not under src/):
a min/max range and a current value, integer valued. The 4-character id and
the human-readable strings play no role in the claims and are omitted. -/
structure config_value_t where
  min_value : Int
  max_value : Int
  value : Int
deriving DecidableEq

/-- Modelled from the spec: `config_get_value` — getters always succeed and
return the last validated value. -/
def config_get_value (c : config_value_t) : Int := c.value

/-- Modelled from the spec: `config_set_value` — setters validate the new
value against the setting's bounds; out-of-range values are rejected
(return false) and the stored value is unchanged. -/
def config_set_value (c : config_value_t) (v : Int) : Bool × config_value_t :=
  if c.min_value ≤ v ∧ v ≤ c.max_value then (true, { c with value := v })
  else (false, c)

/-- The environment: results the external world hands back for each bus
transaction (possibly depending on the history of prior transactions), and
the board-configured charger limits (`CHARGER_CHARGE_CURRENT`,
`CHARGER_CHARGE_VOLTAGE`, `CHARGER_INPUT_CURRENT`, per-board macros). -/
structure Env where
  write_res : List BusEv → Nat → Nat → Nat → Int
  read_res : List BusEv → Nat → Nat → Int × Nat
  charge_current : Nat
  charge_voltage : Nat
  input_current : Nat

/-- The module's process-wide mutable state: the nine telemetry globals,
the two threshold settings, the Register Programmer's `charger_enabled`
flag, the Decision Engine's static `should_charge`, plus the recorded
trace of bus transactions. -/
structure State where
  battery_temp : Nat
  battery_voltage : Nat
  battery_current : Nat
  battery_charge : Nat
  battery_remaining_capacity : Nat
  battery_full_capacity : Nat
  battery_status : Nat
  battery_design_capacity : Nat
  battery_design_voltage : Nat
  battery_start_threshold : config_value_t
  battery_stop_threshold : config_value_t
  charger_enabled : Bool
  should_charge : Bool
  trace : List BusEv
deriving DecidableEq

def BATTERY_ADDRESS : Nat := 0x0B
def CHARGER_ADDRESS : Nat := 0x09

/-- ChargeOption0 flag: Low Power Mode Enable, `1 << 15`. -/
def SBC_EN_LWPWR : Nat := 1 <<< 15
/-- ChargeOption0 flag: Watchdog Timer Adjust (175 s), `0b11 << 13`. -/
def SBC_WDTMR_ADJ_175S : Nat := 3 <<< 13
/-- ChargeOption0 flag: Switching Frequency 800 kHz, `0b01 << 8`. -/
def SBC_PWM_FREQ_800KHZ : Nat := 1 <<< 8
/-- ChargeOption0 flag: IDCHG Amplifier Gain, `1 << 3`. -/
def SBC_IDCHC_GAIN : Nat := 1 <<< 3

/-- The ChargeOption0 value written by `battery_charger_disable`
(low power, 175 s watchdog, 800 kHz switching, IDCHG gain). -/
def chargeOption0Disable : Nat :=
  SBC_EN_LWPWR ||| SBC_WDTMR_ADJ_175S ||| SBC_PWM_FREQ_800KHZ ||| SBC_IDCHC_GAIN

/-- The ChargeOption0 value written by `battery_charger_enable`
(same flags with the watchdog-timeout bits cleared). -/
def chargeOption0Enable : Nat :=
  SBC_EN_LWPWR ||| SBC_PWM_FREQ_800KHZ ||| SBC_IDCHC_GAIN

/-- Modelled from the spec: `smbus_write` (transport out of scope) —
a write to a device address + command code, returning success (≥ 0) or a
negative error code, as decided by the environment; the transaction is
appended to the trace. -/
def smbus_write (env : Env) (s : State) (addr cmd value : Nat) : Int × State :=
  (env.write_res s.trace addr cmd value,
   { s with trace := s.trace ++ [BusEv.write addr cmd value] })

/-- Modelled from the spec: `smbus_read` (transport out of scope) —
a read at a device address + command code, returning success (≥ 0) or a
negative error code, plus the 16-bit data read; the transaction is
appended to the trace. -/
def smbus_read (env : Env) (s : State) (addr cmd : Nat) : (Int × Nat) × State :=
  (((env.read_res s.trace addr cmd).1, (env.read_res s.trace addr cmd).2 % 65536),
   { s with trace := s.trace ++ [BusEv.read addr cmd] })

/-- Initial value of `battery_start_threshold` (battery.c lines 31-41):
bounds [0, 99], default 0 (start-control disabled). -/
def battery_start_threshold_init : config_value_t :=
  { min_value := 0, max_value := 99, value := 0 }

/-- Initial value of `battery_stop_threshold` (battery.c lines 45-55):
bounds [1, 100], default 100 (stop-control disabled). -/
def battery_stop_threshold_init : config_value_t :=
  { min_value := 1, max_value := 100, value := 100 }

/-- The module's state at startup: telemetry globals zero-initialized,
thresholds at their defaults, `charger_enabled = false`,
the Decision Engine's static `should_charge = true`, empty trace. -/
def initState : State :=
  { battery_temp := 0
    battery_voltage := 0
    battery_current := 0
    battery_charge := 0
    battery_remaining_capacity := 0
    battery_full_capacity := 0
    battery_status := 0
    battery_design_capacity := 0
    battery_design_voltage := 0
    battery_start_threshold := battery_start_threshold_init
    battery_stop_threshold := battery_stop_threshold_init
    charger_enabled := false
    should_charge := true
    trace := [] }

/-- battery.c `battery_get_start_threshold` (lines 62-64). -/
def battery_get_start_threshold (s : State) : Int :=
  config_get_value s.battery_start_threshold

/-- battery.c `battery_get_stop_threshold` (lines 66-68). -/
def battery_get_stop_threshold (s : State) : Int :=
  config_get_value s.battery_stop_threshold

/-- battery.c `battery_set_start_threshold` (lines 70-72). -/
def battery_set_start_threshold (s : State) (v : Int) : Bool × State :=
  let r := config_set_value s.battery_start_threshold v
  (r.1, { s with battery_start_threshold := r.2 })

/-- battery.c `battery_set_stop_threshold` (lines 74-76). -/
def battery_set_stop_threshold (s : State) (v : Int) : Bool × State :=
  let r := config_set_value s.battery_stop_threshold v
  (r.1, { s with battery_stop_threshold := r.2 })

/-- battery.c `battery_charger_disable` (lines 81-111). The result of the
first write (ChargeOption0, line 87) is overwritten by the next assignment
to `res` without being checked; each of the three zero writes returns its
negative error code immediately; on full success the flag is cleared and
0 is returned. When `charger_enabled` is already false, returns `res = 0`
without touching the bus. -/
def battery_charger_disable (env : Env) (s : State) : Int × State :=
  if s.charger_enabled then
    let w0 := smbus_write env s CHARGER_ADDRESS 0x12 chargeOption0Disable
    let w1 := smbus_write env w0.2 CHARGER_ADDRESS 0x14 0
    if w1.1 < 0 then w1 else
    let w2 := smbus_write env w1.2 CHARGER_ADDRESS 0x15 0
    if w2.1 < 0 then w2 else
    let w3 := smbus_write env w2.2 CHARGER_ADDRESS 0x3F 0
    if w3.1 < 0 then w3 else
    (0, { w3.2 with charger_enabled := false })
  else (0, s)

/-- battery.c `battery_charger_enable` (lines 113-145). When the flag is
already set, returns `res = 0` without touching the bus; otherwise calls
`battery_charger_disable` (aborting on its failure), writes the three
board-configured limits (each gating), then writes ChargeOption0 with the
watchdog bits cleared — that last result is not checked — and sets the
flag and returns 0. -/
def battery_charger_enable (env : Env) (s : State) : Int × State :=
  if s.charger_enabled then (0, s)
  else
    let d := battery_charger_disable env s
    if d.1 < 0 then d else
    let w1 := smbus_write env d.2 CHARGER_ADDRESS 0x14 env.charge_current
    if w1.1 < 0 then w1 else
    let w2 := smbus_write env w1.2 CHARGER_ADDRESS 0x15 env.charge_voltage
    if w2.1 < 0 then w2 else
    let w3 := smbus_write env w2.2 CHARGER_ADDRESS 0x3F env.input_current
    if w3.1 < 0 then w3 else
    let w4 := smbus_write env w3.2 CHARGER_ADDRESS 0x12 chargeOption0Enable
    (0, { w4.2 with charger_enabled := true })

/-- battery.c `battery_charger_configure` (lines 150-173). The static
`should_charge` (initialized true) is updated by the if/else-if chain,
then the decision is applied. `battery_charge` is a `uint16_t` global and
the thresholds are config values inside their [0, 99] / [1, 100] bounds,
so the C comparisons agree with the `Int` comparisons used here. -/
def battery_charger_configure (env : Env) (s : State) : Int × State :=
  let d :=
    if battery_get_stop_threshold s = 100 then true
    else if (s.battery_charge : Int) ≥ battery_get_stop_threshold s then false
    else if battery_get_start_threshold s = 0 then true
    else if (s.battery_charge : Int) ≤ battery_get_start_threshold s then true
    else s.should_charge
  let s' := { s with should_charge := d }
  if d then battery_charger_enable env s'
  else battery_charger_disable env s'

/-- battery.c `battery_event` (lines 175-196): nine independent reads at
the battery address; each field receives its freshly read value, or 0 when
its own read failed. Returns void (only the state). -/
def battery_event (env : Env) (s : State) : State :=
  let r0 := smbus_read env s BATTERY_ADDRESS 0x08
  let s0 := { r0.2 with battery_temp := if r0.1.1 < 0 then 0 else r0.1.2 }
  let r1 := smbus_read env s0 BATTERY_ADDRESS 0x09
  let s1 := { r1.2 with battery_voltage := if r1.1.1 < 0 then 0 else r1.1.2 }
  let r2 := smbus_read env s1 BATTERY_ADDRESS 0x0A
  let s2 := { r2.2 with battery_current := if r2.1.1 < 0 then 0 else r2.1.2 }
  let r3 := smbus_read env s2 BATTERY_ADDRESS 0x0D
  let s3 := { r3.2 with battery_charge := if r3.1.1 < 0 then 0 else r3.1.2 }
  let r4 := smbus_read env s3 BATTERY_ADDRESS 0x0F
  let s4 := { r4.2 with battery_remaining_capacity := if r4.1.1 < 0 then 0 else r4.1.2 }
  let r5 := smbus_read env s4 BATTERY_ADDRESS 0x10
  let s5 := { r5.2 with battery_full_capacity := if r5.1.1 < 0 then 0 else r5.1.2 }
  let r6 := smbus_read env s5 BATTERY_ADDRESS 0x16
  let s6 := { r6.2 with battery_status := if r6.1.1 < 0 then 0 else r6.1.2 }
  let r7 := smbus_read env s6 BATTERY_ADDRESS 0x18
  let s7 := { r7.2 with battery_design_capacity := if r7.1.1 < 0 then 0 else r7.1.2 }
  let r8 := smbus_read env s7 BATTERY_ADDRESS 0x19
  { r8.2 with battery_design_voltage := if r8.1.1 < 0 then 0 else r8.1.2 }
/-! Section: Projection lemmas for the bus primitives

Proofs never unfold `smbus_write`/`smbus_read` wholesale (that would
duplicate the threaded state); instead each projection of their results is
rewritten on its own. -/

@[simp] theorem smbus_write_res (env : Env) (s : State) (a c v : Nat) :
    (smbus_write env s a c v).1 = env.write_res s.trace a c v := rfl

@[simp] theorem smbus_write_trace (env : Env) (s : State) (a c v : Nat) :
    ((smbus_write env s a c v).2).trace = s.trace ++ [BusEv.write a c v] := rfl

@[simp] theorem smbus_write_battery_temp (env : Env) (s : State) (a c v : Nat) :
    ((smbus_write env s a c v).2).battery_temp = s.battery_temp := rfl

@[simp] theorem smbus_write_battery_voltage (env : Env) (s : State) (a c v : Nat) :
    ((smbus_write env s a c v).2).battery_voltage = s.battery_voltage := rfl

@[simp] theorem smbus_write_battery_current (env : Env) (s : State) (a c v : Nat) :
    ((smbus_write env s a c v).2).battery_current = s.battery_current := rfl

@[simp] theorem smbus_write_battery_charge (env : Env) (s : State) (a c v : Nat) :
    ((smbus_write env s a c v).2).battery_charge = s.battery_charge := rfl

@[simp] theorem smbus_write_battery_remaining_capacity (env : Env) (s : State) (a c v : Nat) :
    ((smbus_write env s a c v).2).battery_remaining_capacity = s.battery_remaining_capacity := rfl

@[simp] theorem smbus_write_battery_full_capacity (env : Env) (s : State) (a c v : Nat) :
    ((smbus_write env s a c v).2).battery_full_capacity = s.battery_full_capacity := rfl

@[simp] theorem smbus_write_battery_status (env : Env) (s : State) (a c v : Nat) :
    ((smbus_write env s a c v).2).battery_status = s.battery_status := rfl

@[simp] theorem smbus_write_battery_design_capacity (env : Env) (s : State) (a c v : Nat) :
    ((smbus_write env s a c v).2).battery_design_capacity = s.battery_design_capacity := rfl

@[simp] theorem smbus_write_battery_design_voltage (env : Env) (s : State) (a c v : Nat) :
    ((smbus_write env s a c v).2).battery_design_voltage = s.battery_design_voltage := rfl

@[simp] theorem smbus_write_battery_start_threshold (env : Env) (s : State) (a c v : Nat) :
    ((smbus_write env s a c v).2).battery_start_threshold = s.battery_start_threshold := rfl

@[simp] theorem smbus_write_battery_stop_threshold (env : Env) (s : State) (a c v : Nat) :
    ((smbus_write env s a c v).2).battery_stop_threshold = s.battery_stop_threshold := rfl

@[simp] theorem smbus_write_charger_enabled (env : Env) (s : State) (a c v : Nat) :
    ((smbus_write env s a c v).2).charger_enabled = s.charger_enabled := rfl

@[simp] theorem smbus_write_should_charge (env : Env) (s : State) (a c v : Nat) :
    ((smbus_write env s a c v).2).should_charge = s.should_charge := rfl

@[simp] theorem smbus_read_res (env : Env) (s : State) (a c : Nat) :
    (smbus_read env s a c).1
      = ((env.read_res s.trace a c).1, (env.read_res s.trace a c).2 % 65536) := rfl

@[simp] theorem smbus_read_trace (env : Env) (s : State) (a c : Nat) :
    ((smbus_read env s a c).2).trace = s.trace ++ [BusEv.read a c] := rfl

@[simp] theorem smbus_read_battery_temp (env : Env) (s : State) (a c : Nat) :
    ((smbus_read env s a c).2).battery_temp = s.battery_temp := rfl

@[simp] theorem smbus_read_battery_voltage (env : Env) (s : State) (a c : Nat) :
    ((smbus_read env s a c).2).battery_voltage = s.battery_voltage := rfl

@[simp] theorem smbus_read_battery_current (env : Env) (s : State) (a c : Nat) :
    ((smbus_read env s a c).2).battery_current = s.battery_current := rfl

@[simp] theorem smbus_read_battery_charge (env : Env) (s : State) (a c : Nat) :
    ((smbus_read env s a c).2).battery_charge = s.battery_charge := rfl

@[simp] theorem smbus_read_battery_remaining_capacity (env : Env) (s : State) (a c : Nat) :
    ((smbus_read env s a c).2).battery_remaining_capacity = s.battery_remaining_capacity := rfl

@[simp] theorem smbus_read_battery_full_capacity (env : Env) (s : State) (a c : Nat) :
    ((smbus_read env s a c).2).battery_full_capacity = s.battery_full_capacity := rfl

@[simp] theorem smbus_read_battery_status (env : Env) (s : State) (a c : Nat) :
    ((smbus_read env s a c).2).battery_status = s.battery_status := rfl

@[simp] theorem smbus_read_battery_design_capacity (env : Env) (s : State) (a c : Nat) :
    ((smbus_read env s a c).2).battery_design_capacity = s.battery_design_capacity := rfl

@[simp] theorem smbus_read_battery_design_voltage (env : Env) (s : State) (a c : Nat) :
    ((smbus_read env s a c).2).battery_design_voltage = s.battery_design_voltage := rfl

@[simp] theorem smbus_read_battery_start_threshold (env : Env) (s : State) (a c : Nat) :
    ((smbus_read env s a c).2).battery_start_threshold = s.battery_start_threshold := rfl

@[simp] theorem smbus_read_battery_stop_threshold (env : Env) (s : State) (a c : Nat) :
    ((smbus_read env s a c).2).battery_stop_threshold = s.battery_stop_threshold := rfl

@[simp] theorem smbus_read_charger_enabled (env : Env) (s : State) (a c : Nat) :
    ((smbus_read env s a c).2).charger_enabled = s.charger_enabled := rfl

@[simp] theorem smbus_read_should_charge (env : Env) (s : State) (a c : Nat) :
    ((smbus_read env s a c).2).should_charge = s.should_charge := rfl

/-! Section: Named bus events -/

/-- ChargeOption0 write issued by `battery_charger_disable` (watchdog armed). -/
def evOptDisable : BusEv := BusEv.write CHARGER_ADDRESS 0x12 chargeOption0Disable

/-- ChargeOption0 write issued by `battery_charger_enable` (watchdog cleared). -/
def evOptEnable : BusEv := BusEv.write CHARGER_ADDRESS 0x12 chargeOption0Enable

/-- Charge-current write of 0 issued by `battery_charger_disable`. -/
def evZeroCurrent : BusEv := BusEv.write CHARGER_ADDRESS 0x14 0

/-- Charge-voltage write of 0 issued by `battery_charger_disable`. -/
def evZeroVoltage : BusEv := BusEv.write CHARGER_ADDRESS 0x15 0

/-- Input-current write of 0 issued by `battery_charger_disable`. -/
def evZeroInput : BusEv := BusEv.write CHARGER_ADDRESS 0x3F 0

/-- Charge-current write to the board limit issued by `battery_charger_enable`. -/
def evSetCurrent (env : Env) : BusEv := BusEv.write CHARGER_ADDRESS 0x14 env.charge_current

/-- Charge-voltage write to the board limit issued by `battery_charger_enable`. -/
def evSetVoltage (env : Env) : BusEv := BusEv.write CHARGER_ADDRESS 0x15 env.charge_voltage

/-- Input-current write to the board limit issued by `battery_charger_enable`. -/
def evSetInput (env : Env) : BusEv := BusEv.write CHARGER_ADDRESS 0x3F env.input_current

/-- The nine telemetry reads issued by `battery_event`, in program order. -/
def eventReadEvs : List BusEv :=
  [BusEv.read BATTERY_ADDRESS 0x08, BusEv.read BATTERY_ADDRESS 0x09,
   BusEv.read BATTERY_ADDRESS 0x0A, BusEv.read BATTERY_ADDRESS 0x0D,
   BusEv.read BATTERY_ADDRESS 0x0F, BusEv.read BATTERY_ADDRESS 0x10,
   BusEv.read BATTERY_ADDRESS 0x16, BusEv.read BATTERY_ADDRESS 0x18,
   BusEv.read BATTERY_ADDRESS 0x19]

/-! Section: Basic behavior lemmas -/

theorem battery_charger_disable_noop (env : Env) (s : State)
    (h : s.charger_enabled = false) : battery_charger_disable env s = (0, s) := by
  rw [battery_charger_disable, if_neg]
  simp [h]

theorem battery_charger_enable_noop (env : Env) (s : State)
    (h : s.charger_enabled = true) : battery_charger_enable env s = (0, s) := by
  rw [battery_charger_enable, if_pos h]

/-- Case-by-case characterization of `battery_charger_disable` when the
hardware-state flag is set: the ChargeOption0 write result gates nothing,
the three zero writes gate the rest. -/
theorem battery_charger_disable_char (env : Env) (s : State)
    (h : s.charger_enabled = true) :
    (env.write_res (s.trace ++ [evOptDisable]) CHARGER_ADDRESS 0x14 0 < 0 →
       battery_charger_disable env s
         = (env.write_res (s.trace ++ [evOptDisable]) CHARGER_ADDRESS 0x14 0,
            { s with trace := s.trace ++ [evOptDisable, evZeroCurrent] }))
  ∧ (0 ≤ env.write_res (s.trace ++ [evOptDisable]) CHARGER_ADDRESS 0x14 0 →
     env.write_res (s.trace ++ [evOptDisable, evZeroCurrent]) CHARGER_ADDRESS 0x15 0 < 0 →
       battery_charger_disable env s
         = (env.write_res (s.trace ++ [evOptDisable, evZeroCurrent]) CHARGER_ADDRESS 0x15 0,
            { s with trace := s.trace ++ [evOptDisable, evZeroCurrent, evZeroVoltage] }))
  ∧ (0 ≤ env.write_res (s.trace ++ [evOptDisable]) CHARGER_ADDRESS 0x14 0 →
     0 ≤ env.write_res (s.trace ++ [evOptDisable, evZeroCurrent]) CHARGER_ADDRESS 0x15 0 →
     env.write_res (s.trace ++ [evOptDisable, evZeroCurrent, evZeroVoltage])
         CHARGER_ADDRESS 0x3F 0 < 0 →
       battery_charger_disable env s
         = (env.write_res (s.trace ++ [evOptDisable, evZeroCurrent, evZeroVoltage])
              CHARGER_ADDRESS 0x3F 0,
            { s with trace :=
                s.trace ++ [evOptDisable, evZeroCurrent, evZeroVoltage, evZeroInput] }))
  ∧ (0 ≤ env.write_res (s.trace ++ [evOptDisable]) CHARGER_ADDRESS 0x14 0 →
     0 ≤ env.write_res (s.trace ++ [evOptDisable, evZeroCurrent]) CHARGER_ADDRESS 0x15 0 →
     0 ≤ env.write_res (s.trace ++ [evOptDisable, evZeroCurrent, evZeroVoltage])
           CHARGER_ADDRESS 0x3F 0 →
       battery_charger_disable env s
         = (0, { s with
                  trace := s.trace
                    ++ [evOptDisable, evZeroCurrent, evZeroVoltage, evZeroInput],
                  charger_enabled := false })) := by
  rw [battery_charger_disable, if_pos h]
  refine ⟨?_, ?_, ?_, ?_⟩ <;>
    intros <;>
    simp only [evOptDisable, evZeroCurrent, evZeroVoltage, evZeroInput,
      smbus_write_res, smbus_write_trace, List.append_assoc, List.cons_append,
      List.nil_append] at * <;>
    split_ifs <;>
    first
      | omega
      | simp [smbus_write, List.append_assoc]

/-- Case-by-case characterization of `battery_charger_enable` when the
hardware-state flag is clear: the internal baseline `battery_charger_disable`
call is a no-op returning 0, the three limit writes gate the rest, and the
final ChargeOption0 write result gates nothing. -/
theorem battery_charger_enable_char (env : Env) (s : State)
    (h : s.charger_enabled = false) :
    battery_charger_disable env s = (0, s)
  ∧ (env.write_res s.trace CHARGER_ADDRESS 0x14 env.charge_current < 0 →
       battery_charger_enable env s
         = (env.write_res s.trace CHARGER_ADDRESS 0x14 env.charge_current,
            { s with trace := s.trace ++ [evSetCurrent env] }))
  ∧ (0 ≤ env.write_res s.trace CHARGER_ADDRESS 0x14 env.charge_current →
     env.write_res (s.trace ++ [evSetCurrent env]) CHARGER_ADDRESS 0x15
         env.charge_voltage < 0 →
       battery_charger_enable env s
         = (env.write_res (s.trace ++ [evSetCurrent env]) CHARGER_ADDRESS 0x15
              env.charge_voltage,
            { s with trace := s.trace ++ [evSetCurrent env, evSetVoltage env] }))
  ∧ (0 ≤ env.write_res s.trace CHARGER_ADDRESS 0x14 env.charge_current →
     0 ≤ env.write_res (s.trace ++ [evSetCurrent env]) CHARGER_ADDRESS 0x15
           env.charge_voltage →
     env.write_res (s.trace ++ [evSetCurrent env, evSetVoltage env]) CHARGER_ADDRESS 0x3F
         env.input_current < 0 →
       battery_charger_enable env s
         = (env.write_res (s.trace ++ [evSetCurrent env, evSetVoltage env])
              CHARGER_ADDRESS 0x3F env.input_current,
            { s with trace :=
                s.trace ++ [evSetCurrent env, evSetVoltage env, evSetInput env] }))
  ∧ (0 ≤ env.write_res s.trace CHARGER_ADDRESS 0x14 env.charge_current →
     0 ≤ env.write_res (s.trace ++ [evSetCurrent env]) CHARGER_ADDRESS 0x15
           env.charge_voltage →
     0 ≤ env.write_res (s.trace ++ [evSetCurrent env, evSetVoltage env]) CHARGER_ADDRESS 0x3F
           env.input_current →
       battery_charger_enable env s
         = (0, { s with
                  trace := s.trace
                    ++ [evSetCurrent env, evSetVoltage env, evSetInput env, evOptEnable],
                  charger_enabled := true })) := by
  have hd := battery_charger_disable_noop env s h
  refine ⟨hd, ?_, ?_, ?_, ?_⟩ <;>
    · intros
      rw [battery_charger_enable, if_neg (by simp [h]), hd]
      simp only [evOptEnable, evSetCurrent, evSetVoltage, evSetInput,
        smbus_write_res, smbus_write_trace, List.append_assoc, List.cons_append,
        List.nil_append] at *
      split_ifs <;>
        first
          | omega
          | simp [smbus_write, List.append_assoc]

theorem battery_charger_disable_should_charge (env : Env) (s : State) :
    ((battery_charger_disable env s).2).should_charge = s.should_charge := by
  rw [battery_charger_disable]
  split <;> [skip; rfl]
  simp only []
  split_ifs <;> simp

theorem battery_charger_enable_should_charge (env : Env) (s : State) :
    ((battery_charger_enable env s).2).should_charge = s.should_charge := by
  rcases hf : s.charger_enabled with _ | _
  · rw [battery_charger_enable, if_neg (by simp [hf]),
      battery_charger_disable_noop env s hf]
    simp only []
    split_ifs <;> simp
  · rw [battery_charger_enable_noop env s hf]

theorem battery_charger_disable_nonneg_flag (env : Env) (s : State)
    (h : 0 ≤ (battery_charger_disable env s).1) :
    ((battery_charger_disable env s).2).charger_enabled = false := by
  rcases hf : s.charger_enabled with _ | _
  · rw [battery_charger_disable_noop env s hf]
    exact hf
  · rw [battery_charger_disable, if_pos hf] at h ⊢
    simp only [] at h ⊢
    split_ifs at h ⊢ <;> first | omega | simp

theorem battery_charger_enable_nonneg_flag (env : Env) (s : State)
    (h : 0 ≤ (battery_charger_enable env s).1) :
    ((battery_charger_enable env s).2).charger_enabled = true := by
  rcases hf : s.charger_enabled with _ | _
  · have hd := battery_charger_disable_noop env s hf
    rw [battery_charger_enable, if_neg (by simp [hf]), hd] at h ⊢
    simp only [] at h ⊢
    split_ifs at h ⊢ <;> first | omega | simp
  · rw [battery_charger_enable_noop env s hf]
    exact hf

theorem battery_charger_disable_trace_extends (env : Env) (s : State) :
    ∃ l, ((battery_charger_disable env s).2).trace = s.trace ++ l := by
  rcases hf : s.charger_enabled with _ | _
  · rw [battery_charger_disable_noop env s hf]
    exact ⟨[], by simp⟩
  · rw [battery_charger_disable, if_pos hf]
    simp only []
    split_ifs
    · exact ⟨[evOptDisable, evZeroCurrent],
        by simp [evOptDisable, evZeroCurrent, List.append_assoc]⟩
    · exact ⟨[evOptDisable, evZeroCurrent, evZeroVoltage],
        by simp [evOptDisable, evZeroCurrent, evZeroVoltage, List.append_assoc]⟩
    · exact ⟨[evOptDisable, evZeroCurrent, evZeroVoltage, evZeroInput],
        by simp [evOptDisable, evZeroCurrent, evZeroVoltage, evZeroInput,
          List.append_assoc]⟩
    · exact ⟨[evOptDisable, evZeroCurrent, evZeroVoltage, evZeroInput],
        by simp [evOptDisable, evZeroCurrent, evZeroVoltage, evZeroInput,
          List.append_assoc]⟩

theorem battery_charger_enable_trace_extends (env : Env) (s : State) :
    ∃ l, ((battery_charger_enable env s).2).trace = s.trace ++ l := by
  rcases hf : s.charger_enabled with _ | _
  · have hd := battery_charger_disable_noop env s hf
    rw [battery_charger_enable, if_neg (by simp [hf]), hd]
    simp only []
    split_ifs
    · exact ⟨[], by simp⟩
    · exact ⟨[evSetCurrent env], by simp [evSetCurrent]⟩
    · exact ⟨[evSetCurrent env, evSetVoltage env],
        by simp [evSetCurrent, evSetVoltage, List.append_assoc]⟩
    · exact ⟨[evSetCurrent env, evSetVoltage env, evSetInput env],
        by simp [evSetCurrent, evSetVoltage, evSetInput, List.append_assoc]⟩
    · exact ⟨[evSetCurrent env, evSetVoltage env, evSetInput env, evOptEnable],
        by simp [evSetCurrent, evSetVoltage, evSetInput, evOptEnable,
          List.append_assoc]⟩
  · rw [battery_charger_enable_noop env s hf]
    exact ⟨[], by simp⟩

theorem battery_event_trace (env : Env) (s : State) :
    (battery_event env s).trace = s.trace ++ eventReadEvs := by
  rw [battery_event]
  simp [eventReadEvs, List.append_assoc]

theorem battery_event_charger_enabled (env : Env) (s : State) :
    (battery_event env s).charger_enabled = s.charger_enabled := by
  rw [battery_event]
  simp

theorem battery_event_should_charge (env : Env) (s : State) :
    (battery_event env s).should_charge = s.should_charge := by
  rw [battery_event]
  simp

theorem battery_charger_configure_trace_extends (env : Env) (s : State) :
    ∃ l, ((battery_charger_configure env s).2).trace = s.trace ++ l := by
  rw [battery_charger_configure]
  split_ifs <;>
    first
      | exact battery_charger_enable_trace_extends env _
      | exact battery_charger_disable_trace_extends env _

/-! Section: The spec's decision engine, claims C1 and C6 -/

/-- The spec's decision rules (§4.3) as an ordered list of (guard, outcome)
pairs over charge percentage `c`, start threshold `start`, stop threshold
`stop`: (1) stop = 100 gives Charge; (2) c ≥ stop gives NoCharge;
(3) start = 0 gives Charge; (4) c ≤ start gives Charge. `true` = Charge. -/
def specDecisionRules (c : Nat) (start stop : Int) : List (Bool × Bool) :=
  [(decide (stop = 100), true),
   (decide ((c : Int) ≥ stop), false),
   (decide (start = 0), true),
   (decide ((c : Int) ≤ start), true)]

/-- First-matching-rule evaluation: the first rule whose guard holds gives
the outcome; if no rule matches, the previous decision is retained. -/
def firstMatch : List (Bool × Bool) → Bool → Bool
  | [], d => d
  | (g, o) :: rest, d => if g then o else firstMatch rest d

theorem firstMatch_specDecisionRules (c : Nat) (a b : Int) (d : Bool) :
    firstMatch (specDecisionRules c a b) d =
      (if b = 100 then true
       else if (c : Int) ≥ b then false
       else if a = 0 then true
       else if (c : Int) ≤ a then true
       else d) := by
  simp only [firstMatch, specDecisionRules, decide_eq_true_eq]

/-- C1: one call of `battery_charger_configure` computes the next
should-charge decision by the first matching rule of: (1) stop = 100 gives
Charge; (2) charge ≥ stop gives NoCharge; (3) start = 0 gives Charge;
(4) charge ≤ start gives Charge; (5) otherwise the previous decision is
kept unchanged. The remembered `should_charge` is updated to this result
and the result is applied: `battery_charger_enable` for Charge,
`battery_charger_disable` for NoCharge. -/
theorem battery_charger_configure_spec (env : Env) (s : State) :
    (let d := firstMatch
        (specDecisionRules s.battery_charge (battery_get_start_threshold s)
          (battery_get_stop_threshold s)) s.should_charge
     battery_charger_configure env s =
        (if d then battery_charger_enable env { s with should_charge := d }
         else battery_charger_disable env { s with should_charge := d })
      ∧ ((battery_charger_configure env s).2).should_charge = d) := by
  simp only [firstMatch_specDecisionRules]
  constructor
  · rw [battery_charger_configure]
  · rw [battery_charger_configure]
    split_ifs <;>
      simp [battery_charger_enable_should_charge, battery_charger_disable_should_charge]

/-- An environment in which every bus transaction succeeds. -/
def allOkEnv : Env :=
  { write_res := fun _ _ _ _ => 0
    read_res := fun _ _ _ => (0, 0)
    charge_current := 1536
    charge_voltage := 8800
    input_current := 3072 }

/-- Start threshold 40, stop threshold 80, remembered decision NoCharge,
charge percentage 50. -/
def hysteresisState : State :=
  { initState with
    battery_start_threshold := { min_value := 0, max_value := 99, value := 40 }
    battery_stop_threshold := { min_value := 1, max_value := 100, value := 80 }
    should_charge := false
    battery_charge := 50 }

/-- C6: with start threshold 40, stop threshold 80 and remembered decision
NoCharge, evaluating the decision engine successively on charge
percentages 50, 60 and 70 yields NoCharge at every step, and the
remembered decision is still NoCharge afterwards (no rule fires strictly
between the two active thresholds). -/
theorem battery_hysteresis_trace :
    ((battery_charger_configure allOkEnv hysteresisState).2).should_charge = false
    ∧ ((battery_charger_configure allOkEnv
        { (battery_charger_configure allOkEnv hysteresisState).2 with
          battery_charge := 60 }).2).should_charge = false
    ∧ ((battery_charger_configure allOkEnv
        { (battery_charger_configure allOkEnv
            { (battery_charger_configure allOkEnv hysteresisState).2 with
              battery_charge := 60 }).2 with
          battery_charge := 70 }).2).should_charge = false := by
  decide

/-! Section: Claims C2 and C3: the register programmer sequences -/

/-- C2: with the hardware-state flag enabled, `battery_charger_disable`
writes ChargeOption0 (command 0x12) with the low-power, 175 s-watchdog,
800 kHz-switching and discharge-amplifier-gain flags, then charge current
(0x14) = 0, charge voltage (0x15) = 0, input current (0x3F) = 0, in that
order. The option write's result gates nothing (no clause below constrains
it), each zero write returns its negative error code immediately leaving
the later registers unwritten, and when all three zero writes succeed the
flag is cleared and 0 is returned. -/
theorem battery_charger_disable_spec (env : Env) (s : State)
    (h : s.charger_enabled = true) :
    (env.write_res (s.trace ++ [evOptDisable]) CHARGER_ADDRESS 0x14 0 < 0 →
       battery_charger_disable env s
         = (env.write_res (s.trace ++ [evOptDisable]) CHARGER_ADDRESS 0x14 0,
            { s with trace := s.trace ++ [evOptDisable, evZeroCurrent] }))
  ∧ (0 ≤ env.write_res (s.trace ++ [evOptDisable]) CHARGER_ADDRESS 0x14 0 →
     env.write_res (s.trace ++ [evOptDisable, evZeroCurrent]) CHARGER_ADDRESS 0x15 0 < 0 →
       battery_charger_disable env s
         = (env.write_res (s.trace ++ [evOptDisable, evZeroCurrent]) CHARGER_ADDRESS 0x15 0,
            { s with trace := s.trace ++ [evOptDisable, evZeroCurrent, evZeroVoltage] }))
  ∧ (0 ≤ env.write_res (s.trace ++ [evOptDisable]) CHARGER_ADDRESS 0x14 0 →
     0 ≤ env.write_res (s.trace ++ [evOptDisable, evZeroCurrent]) CHARGER_ADDRESS 0x15 0 →
     env.write_res (s.trace ++ [evOptDisable, evZeroCurrent, evZeroVoltage])
         CHARGER_ADDRESS 0x3F 0 < 0 →
       battery_charger_disable env s
         = (env.write_res (s.trace ++ [evOptDisable, evZeroCurrent, evZeroVoltage])
              CHARGER_ADDRESS 0x3F 0,
            { s with trace :=
                s.trace ++ [evOptDisable, evZeroCurrent, evZeroVoltage, evZeroInput] }))
  ∧ (0 ≤ env.write_res (s.trace ++ [evOptDisable]) CHARGER_ADDRESS 0x14 0 →
     0 ≤ env.write_res (s.trace ++ [evOptDisable, evZeroCurrent]) CHARGER_ADDRESS 0x15 0 →
     0 ≤ env.write_res (s.trace ++ [evOptDisable, evZeroCurrent, evZeroVoltage])
           CHARGER_ADDRESS 0x3F 0 →
       battery_charger_disable env s
         = (0, { s with
                  trace := s.trace
                    ++ [evOptDisable, evZeroCurrent, evZeroVoltage, evZeroInput],
                  charger_enabled := false })) :=
  battery_charger_disable_char env s h

/-- The startup state with the hardware-state flag set. -/
def enabledInit : State := { initState with charger_enabled := true }

/-- An environment whose bus rejects writes to the charge-voltage register
(command 0x15) with error -7 and accepts everything else. -/
def envFailVoltage : Env :=
  { write_res := fun _ _ c _ => if c = 0x15 then -7 else 0
    read_res := fun _ _ _ => (0, 0)
    charge_current := 1536
    charge_voltage := 8800
    input_current := 3072 }

theorem battery_charger_disable_spec_witness :
    enabledInit.charger_enabled = true
    ∧ battery_charger_disable envFailVoltage enabledInit
        = (envFailVoltage.write_res (enabledInit.trace ++ [evOptDisable, evZeroCurrent])
             CHARGER_ADDRESS 0x15 0,
           { enabledInit with
             trace := enabledInit.trace ++ [evOptDisable, evZeroCurrent, evZeroVoltage] })
    ∧ envFailVoltage.write_res (enabledInit.trace ++ [evOptDisable, evZeroCurrent])
        CHARGER_ADDRESS 0x15 0 = -7 :=
  ⟨rfl,
   (battery_charger_disable_spec envFailVoltage enabledInit rfl).2.1
     (by decide) (by decide),
   by decide⟩

/-- C3: with the hardware-state flag disabled, `battery_charger_enable`
first calls `battery_charger_disable` (a no-op returning 0 here, so its
error exit is never taken), then writes charge current, charge voltage and
input current to the board-configured limits — each returning its negative
error code immediately on failure — and finally writes ChargeOption0 with
the same flags as disable minus the watchdog bits; reaching the end it
sets the flag and returns 0. -/
theorem battery_charger_enable_spec (env : Env) (s : State)
    (h : s.charger_enabled = false) :
    battery_charger_disable env s = (0, s)
  ∧ (env.write_res s.trace CHARGER_ADDRESS 0x14 env.charge_current < 0 →
       battery_charger_enable env s
         = (env.write_res s.trace CHARGER_ADDRESS 0x14 env.charge_current,
            { s with trace := s.trace ++ [evSetCurrent env] }))
  ∧ (0 ≤ env.write_res s.trace CHARGER_ADDRESS 0x14 env.charge_current →
     env.write_res (s.trace ++ [evSetCurrent env]) CHARGER_ADDRESS 0x15
         env.charge_voltage < 0 →
       battery_charger_enable env s
         = (env.write_res (s.trace ++ [evSetCurrent env]) CHARGER_ADDRESS 0x15
              env.charge_voltage,
            { s with trace := s.trace ++ [evSetCurrent env, evSetVoltage env] }))
  ∧ (0 ≤ env.write_res s.trace CHARGER_ADDRESS 0x14 env.charge_current →
     0 ≤ env.write_res (s.trace ++ [evSetCurrent env]) CHARGER_ADDRESS 0x15
           env.charge_voltage →
     env.write_res (s.trace ++ [evSetCurrent env, evSetVoltage env]) CHARGER_ADDRESS 0x3F
         env.input_current < 0 →
       battery_charger_enable env s
         = (env.write_res (s.trace ++ [evSetCurrent env, evSetVoltage env])
              CHARGER_ADDRESS 0x3F env.input_current,
            { s with trace :=
                s.trace ++ [evSetCurrent env, evSetVoltage env, evSetInput env] }))
  ∧ (0 ≤ env.write_res s.trace CHARGER_ADDRESS 0x14 env.charge_current →
     0 ≤ env.write_res (s.trace ++ [evSetCurrent env]) CHARGER_ADDRESS 0x15
           env.charge_voltage →
     0 ≤ env.write_res (s.trace ++ [evSetCurrent env, evSetVoltage env]) CHARGER_ADDRESS 0x3F
           env.input_current →
       battery_charger_enable env s
         = (0, { s with
                  trace := s.trace
                    ++ [evSetCurrent env, evSetVoltage env, evSetInput env, evOptEnable],
                  charger_enabled := true })) :=
  battery_charger_enable_char env s h

theorem battery_charger_enable_spec_witness :
    initState.charger_enabled = false
    ∧ battery_charger_disable allOkEnv initState = (0, initState)
    ∧ battery_charger_enable allOkEnv initState
        = (0, { initState with
                 trace := initState.trace
                   ++ [evSetCurrent allOkEnv, evSetVoltage allOkEnv, evSetInput allOkEnv,
                       evOptEnable],
                 charger_enabled := true }) :=
  ⟨rfl,
   (battery_charger_enable_spec allOkEnv initState rfl).1,
   (battery_charger_enable_spec allOkEnv initState rfl).2.2.2.2
     (by decide) (by decide) (by decide)⟩

/-! Section: Claim C4: failure propagation without rollback -/

/-- C4: whenever a gating write inside `battery_charger_disable` or
`battery_charger_enable` fails, the call returns a negative result `r`
that is exactly the environment's error code for the last transaction
issued (the failing write — nothing is issued after it), the trace is the
caller's trace extended by exactly the writes up to and including the
failing one (no rollback of the earlier writes), and `charger_enabled`
keeps the value it had before the call. -/
theorem battery_charger_error_propagation (env : Env) (s : State) :
    (∀ r t, battery_charger_disable env s = (r, t) → r < 0 →
       t.charger_enabled = s.charger_enabled
       ∧ (∃ pre a c v, t.trace = pre ++ [BusEv.write a c v]
            ∧ r = env.write_res pre a c v)
       ∧ (t.trace = s.trace ++ [evOptDisable, evZeroCurrent]
          ∨ t.trace = s.trace ++ [evOptDisable, evZeroCurrent, evZeroVoltage]
          ∨ t.trace = s.trace ++ [evOptDisable, evZeroCurrent, evZeroVoltage, evZeroInput]))
  ∧ (∀ r t, battery_charger_enable env s = (r, t) → r < 0 →
       t.charger_enabled = s.charger_enabled
       ∧ (∃ pre a c v, t.trace = pre ++ [BusEv.write a c v]
            ∧ r = env.write_res pre a c v)
       ∧ (t.trace = s.trace ++ [evSetCurrent env]
          ∨ t.trace = s.trace ++ [evSetCurrent env, evSetVoltage env]
          ∨ t.trace = s.trace ++ [evSetCurrent env, evSetVoltage env, evSetInput env])) := by
  constructor
  · intro r t heq hneg
    rcases hf : s.charger_enabled with _ | _
    · rw [battery_charger_disable_noop env s hf] at heq
      cases heq
      omega
    · obtain ⟨c1, c2, c3, c4⟩ := battery_charger_disable_char env s hf
      by_cases h2 : env.write_res (s.trace ++ [evOptDisable]) CHARGER_ADDRESS 0x14 0 < 0
      · rw [c1 h2] at heq
        cases heq
        exact ⟨by simp [hf],
          ⟨s.trace ++ [evOptDisable], CHARGER_ADDRESS, 0x14, 0,
            by simp [evZeroCurrent, List.append_assoc], rfl⟩,
          Or.inl rfl⟩
      · by_cases h3 : env.write_res (s.trace ++ [evOptDisable, evZeroCurrent])
            CHARGER_ADDRESS 0x15 0 < 0
        · rw [c2 (by omega) h3] at heq
          cases heq
          exact ⟨by simp [hf],
            ⟨s.trace ++ [evOptDisable, evZeroCurrent], CHARGER_ADDRESS, 0x15, 0,
              by simp [evZeroVoltage, List.append_assoc], rfl⟩,
            Or.inr (Or.inl rfl)⟩
        · by_cases h4 : env.write_res (s.trace ++ [evOptDisable, evZeroCurrent, evZeroVoltage])
              CHARGER_ADDRESS 0x3F 0 < 0
          · rw [c3 (by omega) (by omega) h4] at heq
            cases heq
            exact ⟨by simp [hf],
              ⟨s.trace ++ [evOptDisable, evZeroCurrent, evZeroVoltage],
                CHARGER_ADDRESS, 0x3F, 0,
                by simp [evZeroInput, List.append_assoc], rfl⟩,
              Or.inr (Or.inr rfl)⟩
          · rw [c4 (by omega) (by omega) (by omega)] at heq
            cases heq
            omega
  · intro r t heq hneg
    rcases hf : s.charger_enabled with _ | _
    · obtain ⟨c0, c1, c2, c3, c4⟩ := battery_charger_enable_char env s hf
      by_cases h1 : env.write_res s.trace CHARGER_ADDRESS 0x14 env.charge_current < 0
      · rw [c1 h1] at heq
        cases heq
        exact ⟨by simp [hf],
          ⟨s.trace, CHARGER_ADDRESS, 0x14, env.charge_current,
            by simp [evSetCurrent], rfl⟩,
          Or.inl rfl⟩
      · by_cases h2 : env.write_res (s.trace ++ [evSetCurrent env]) CHARGER_ADDRESS 0x15
            env.charge_voltage < 0
        · rw [c2 (by omega) h2] at heq
          cases heq
          exact ⟨by simp [hf],
            ⟨s.trace ++ [evSetCurrent env], CHARGER_ADDRESS, 0x15, env.charge_voltage,
              by simp [evSetVoltage, List.append_assoc], rfl⟩,
            Or.inr (Or.inl rfl)⟩
        · by_cases h3 : env.write_res (s.trace ++ [evSetCurrent env, evSetVoltage env])
              CHARGER_ADDRESS 0x3F env.input_current < 0
          · rw [c3 (by omega) (by omega) h3] at heq
            cases heq
            exact ⟨by simp [hf],
              ⟨s.trace ++ [evSetCurrent env, evSetVoltage env],
                CHARGER_ADDRESS, 0x3F, env.input_current,
                by simp [evSetInput, List.append_assoc], rfl⟩,
              Or.inr (Or.inr rfl)⟩
          · rw [c4 (by omega) (by omega) (by omega)] at heq
            cases heq
            omega
    · rw [battery_charger_enable_noop env s hf] at heq
      cases heq
      omega

theorem battery_charger_error_propagation_witness :
    (-7 : Int) < 0
    ∧ ({ enabledInit with
          trace := enabledInit.trace ++ [evOptDisable, evZeroCurrent, evZeroVoltage]
        } : State).charger_enabled = enabledInit.charger_enabled
    ∧ (∃ pre a c v,
        ({ enabledInit with
            trace := enabledInit.trace ++ [evOptDisable, evZeroCurrent, evZeroVoltage]
          } : State).trace = pre ++ [BusEv.write a c v]
        ∧ (-7 : Int) = envFailVoltage.write_res pre a c v) := by
  have h := (battery_charger_error_propagation envFailVoltage enabledInit).1 (-7)
    { enabledInit with
      trace := enabledInit.trace ++ [evOptDisable, evZeroCurrent, evZeroVoltage] }
    (by decide) (by decide)
  exact ⟨by decide, h.1, h.2.1⟩

/-! Section: Claim C5: idempotence of the register programmer -/

/-- An environment whose bus rejects writes to the charge-current register
(command 0x14) with error -5 and accepts everything else. -/
def envFailCurrent : Env :=
  { write_res := fun _ _ c _ => if c = 0x14 then -5 else 0
    read_res := fun _ _ _ => (0, 0)
    charge_current := 1536
    charge_voltage := 8800
    input_current := 3072 }

/-- Counterexample to C5 as stated: when the first `battery_charger_disable`
call fails (its 0x14 write is rejected), `charger_enabled` stays set, so a
second call in a row issues hardware writes again — both calls grow the
bus trace, refuting "calling either operation twice in a row issues
hardware writes at most on the first call". -/
theorem battery_charger_double_call_cex :
    ((battery_charger_disable envFailCurrent enabledInit).2).trace ≠ enabledInit.trace
    ∧ ((battery_charger_disable envFailCurrent
          (battery_charger_disable envFailCurrent enabledInit).2).2).trace
        ≠ ((battery_charger_disable envFailCurrent enabledInit).2).trace := by
  decide

/-- C5 (amended): `battery_charger_disable` with the flag already clear
performs no bus writes and returns 0, `battery_charger_enable` with the
flag already set likewise; and whenever a call of either operation returns
0, an immediately following call of the same operation performs no bus
writes and returns 0 — so two calls in a row issue writes at most on the
first call provided the first call succeeds (a failed first call leaves
the flag unchanged and the second call writes again). -/
theorem battery_charger_idempotent (env env2 : Env) (s : State) :
    (s.charger_enabled = false → battery_charger_disable env s = (0, s))
  ∧ (s.charger_enabled = true → battery_charger_enable env s = (0, s))
  ∧ (∀ t, battery_charger_disable env s = (0, t) →
       battery_charger_disable env2 t = (0, t))
  ∧ (∀ t, battery_charger_enable env s = (0, t) →
       battery_charger_enable env2 t = (0, t)) := by
  refine ⟨battery_charger_disable_noop env s, battery_charger_enable_noop env s, ?_, ?_⟩
  · intro t h
    have h1 : (battery_charger_disable env s).1 = 0 := by rw [h]
    have h2 : (battery_charger_disable env s).2 = t := by rw [h]
    have hflag := battery_charger_disable_nonneg_flag env s (by omega)
    rw [h2] at hflag
    exact battery_charger_disable_noop env2 t hflag
  · intro t h
    have h1 : (battery_charger_enable env s).1 = 0 := by rw [h]
    have h2 : (battery_charger_enable env s).2 = t := by rw [h]
    have hflag := battery_charger_enable_nonneg_flag env s (by omega)
    rw [h2] at hflag
    exact battery_charger_enable_noop env2 t hflag

theorem battery_charger_idempotent_witness :
    battery_charger_disable allOkEnv initState = (0, initState)
    ∧ battery_charger_enable allOkEnv enabledInit = (0, enabledInit)
    ∧ battery_charger_disable allOkEnv (battery_charger_disable allOkEnv enabledInit).2
        = (0, (battery_charger_disable allOkEnv enabledInit).2)
    ∧ battery_charger_enable allOkEnv (battery_charger_enable allOkEnv initState).2
        = (0, (battery_charger_enable allOkEnv initState).2) :=
  ⟨(battery_charger_idempotent allOkEnv allOkEnv initState).1 rfl,
   (battery_charger_idempotent allOkEnv allOkEnv enabledInit).2.1 rfl,
   (battery_charger_idempotent allOkEnv allOkEnv enabledInit).2.2.1
     (battery_charger_disable allOkEnv enabledInit).2 (by decide),
   (battery_charger_idempotent allOkEnv allOkEnv initState).2.2.2
     (battery_charger_enable allOkEnv initState).2 (by decide)⟩

/-! Section: Claim C7: the telemetry polling pass -/

/-- The value stored by `battery_event`'s per-field `command` macro: the
freshly read 16-bit datum on success, 0 when that field's read failed. -/
def telemVal (env : Env) (tr : List BusEv) (cmd : Nat) : Nat :=
  if (env.read_res tr BATTERY_ADDRESS cmd).1 < 0 then 0
  else (env.read_res tr BATTERY_ADDRESS cmd).2 % 65536

/-- C7: one call of `battery_event` issues exactly one bus read per
telemetry field, at the nine fixed command codes in program order (the
trace equation); each field receives the value of its own read, or 0 when
that read failed, independently of the other reads; the threshold
settings and charger flags are untouched. The function returns the state
alone (C `void`) — no error is ever propagated to the caller. -/
theorem battery_event_spec (env : Env) (s : State) :
    (battery_event env s).trace = s.trace ++ eventReadEvs
  ∧ (battery_event env s).battery_temp = telemVal env s.trace 0x08
  ∧ (battery_event env s).battery_voltage
      = telemVal env (s.trace ++ [BusEv.read BATTERY_ADDRESS 0x08]) 0x09
  ∧ (battery_event env s).battery_current
      = telemVal env (s.trace
          ++ [BusEv.read BATTERY_ADDRESS 0x08, BusEv.read BATTERY_ADDRESS 0x09]) 0x0A
  ∧ (battery_event env s).battery_charge
      = telemVal env (s.trace
          ++ [BusEv.read BATTERY_ADDRESS 0x08, BusEv.read BATTERY_ADDRESS 0x09,
              BusEv.read BATTERY_ADDRESS 0x0A]) 0x0D
  ∧ (battery_event env s).battery_remaining_capacity
      = telemVal env (s.trace
          ++ [BusEv.read BATTERY_ADDRESS 0x08, BusEv.read BATTERY_ADDRESS 0x09,
              BusEv.read BATTERY_ADDRESS 0x0A, BusEv.read BATTERY_ADDRESS 0x0D]) 0x0F
  ∧ (battery_event env s).battery_full_capacity
      = telemVal env (s.trace
          ++ [BusEv.read BATTERY_ADDRESS 0x08, BusEv.read BATTERY_ADDRESS 0x09,
              BusEv.read BATTERY_ADDRESS 0x0A, BusEv.read BATTERY_ADDRESS 0x0D,
              BusEv.read BATTERY_ADDRESS 0x0F]) 0x10
  ∧ (battery_event env s).battery_status
      = telemVal env (s.trace
          ++ [BusEv.read BATTERY_ADDRESS 0x08, BusEv.read BATTERY_ADDRESS 0x09,
              BusEv.read BATTERY_ADDRESS 0x0A, BusEv.read BATTERY_ADDRESS 0x0D,
              BusEv.read BATTERY_ADDRESS 0x0F, BusEv.read BATTERY_ADDRESS 0x10]) 0x16
  ∧ (battery_event env s).battery_design_capacity
      = telemVal env (s.trace
          ++ [BusEv.read BATTERY_ADDRESS 0x08, BusEv.read BATTERY_ADDRESS 0x09,
              BusEv.read BATTERY_ADDRESS 0x0A, BusEv.read BATTERY_ADDRESS 0x0D,
              BusEv.read BATTERY_ADDRESS 0x0F, BusEv.read BATTERY_ADDRESS 0x10,
              BusEv.read BATTERY_ADDRESS 0x16]) 0x18
  ∧ (battery_event env s).battery_design_voltage
      = telemVal env (s.trace
          ++ [BusEv.read BATTERY_ADDRESS 0x08, BusEv.read BATTERY_ADDRESS 0x09,
              BusEv.read BATTERY_ADDRESS 0x0A, BusEv.read BATTERY_ADDRESS 0x0D,
              BusEv.read BATTERY_ADDRESS 0x0F, BusEv.read BATTERY_ADDRESS 0x10,
              BusEv.read BATTERY_ADDRESS 0x16, BusEv.read BATTERY_ADDRESS 0x18]) 0x19
  ∧ (battery_event env s).battery_start_threshold = s.battery_start_threshold
  ∧ (battery_event env s).battery_stop_threshold = s.battery_stop_threshold
  ∧ (battery_event env s).charger_enabled = s.charger_enabled
  ∧ (battery_event env s).should_charge = s.should_charge := by
  refine ⟨battery_event_trace env s,
    ?_, ?_, ?_, ?_, ?_, ?_, ?_, ?_, ?_, ?_, ?_, ?_, ?_⟩ <;>
    · rw [battery_event]
      simp [telemVal, List.append_assoc]

/-! Section: Claim C8: threshold validation -/

/-- The fixed bounds of the two threshold settings (battery.c lines 36-37
and 50-51): start in [0, 99], stop in [1, 100]. -/
def thresholdBoundsOk (s : State) : Prop :=
  s.battery_start_threshold.min_value = 0 ∧ s.battery_start_threshold.max_value = 99
  ∧ s.battery_stop_threshold.min_value = 1 ∧ s.battery_stop_threshold.max_value = 100

/-- The §3 data-model invariant: each stored threshold value lies between
its lower and upper bound. -/
def thresholdInv (s : State) : Prop :=
  (s.battery_start_threshold.min_value ≤ s.battery_start_threshold.value
    ∧ s.battery_start_threshold.value ≤ s.battery_start_threshold.max_value)
  ∧ (s.battery_stop_threshold.min_value ≤ s.battery_stop_threshold.value
    ∧ s.battery_stop_threshold.value ≤ s.battery_stop_threshold.max_value)

instance (s : State) : Decidable (thresholdBoundsOk s) := by
  unfold thresholdBoundsOk
  infer_instance

instance (s : State) : Decidable (thresholdInv s) := by
  unfold thresholdInv
  infer_instance

/-- C8: `battery_set_start_threshold` rejects every value outside [0, 99]
returning false with the state unchanged, `battery_set_stop_threshold`
rejects every value outside [1, 100] likewise; the defaults are 0 (start)
and 100 (stop); the getters always succeed and return the stored value;
and the bounds invariant holds initially and is preserved by every setter
call, accepted or rejected. -/
theorem battery_threshold_spec (s : State) (v : Int) :
    (thresholdBoundsOk s → ¬(0 ≤ v ∧ v ≤ 99) →
       battery_set_start_threshold s v = (false, s))
  ∧ (thresholdBoundsOk s → ¬(1 ≤ v ∧ v ≤ 100) →
       battery_set_stop_threshold s v = (false, s))
  ∧ battery_get_start_threshold initState = 0
  ∧ battery_get_stop_threshold initState = 100
  ∧ battery_get_start_threshold s = s.battery_start_threshold.value
  ∧ battery_get_stop_threshold s = s.battery_stop_threshold.value
  ∧ thresholdInv initState
  ∧ (thresholdInv s → thresholdInv (battery_set_start_threshold s v).2)
  ∧ (thresholdInv s → thresholdInv (battery_set_stop_threshold s v).2) := by
  refine ⟨?_, ?_, rfl, rfl, rfl, rfl, by decide, ?_, ?_⟩
  · intro hb hv
    obtain ⟨hb1, hb2, _, _⟩ := hb
    simp only [battery_set_start_threshold, config_set_value, hb1, hb2, if_neg hv]
  · intro hb hv
    obtain ⟨_, _, hb3, hb4⟩ := hb
    simp only [battery_set_stop_threshold, config_set_value, hb3, hb4, if_neg hv]
  · intro hi
    simp only [battery_set_start_threshold, config_set_value]
    split_ifs with hc
    · exact ⟨hc, hi.2⟩
    · exact hi
  · intro hi
    simp only [battery_set_stop_threshold, config_set_value]
    split_ifs with hc
    · exact ⟨hi.1, hc⟩
    · exact hi

theorem battery_threshold_spec_witness :
    battery_set_start_threshold initState 150 = (false, initState)
    ∧ battery_set_stop_threshold initState 0 = (false, initState)
    ∧ thresholdInv (battery_set_start_threshold initState 150).2 :=
  ⟨(battery_threshold_spec initState 150).1 (by decide) (by decide),
   (battery_threshold_spec initState 0).2.1 (by decide) (by decide),
   (battery_threshold_spec initState 150).2.2.2.2.2.2.2.1 (by decide)⟩

/-! Section: Claim C9: the unchecked final ChargeOption0 write in enable -/

/-- An environment whose bus rejects writes to the ChargeOption0 register
(command 0x12) with error -3 and accepts everything else. -/
def envFailOpt : Env :=
  { write_res := fun _ _ c _ => if c = 0x12 then -3 else 0
    read_res := fun _ _ _ => (0, 0)
    charge_current := 1536
    charge_voltage := 8800
    input_current := 3072 }

/-- C9: `battery_charger_enable` never checks the result of its final
ChargeOption0 (command 0x12) write: the hypotheses below constrain only
the three limit writes, so whatever the environment returns for the
option write — in particular a negative error — the function still
returns 0 and marks `charger_enabled`, leaving the failure invisible to
the caller. -/
theorem battery_charger_enable_unchecked_final_write (env : Env) (s : State)
    (h : s.charger_enabled = false)
    (h1 : 0 ≤ env.write_res s.trace CHARGER_ADDRESS 0x14 env.charge_current)
    (h2 : 0 ≤ env.write_res (s.trace ++ [evSetCurrent env]) CHARGER_ADDRESS 0x15
            env.charge_voltage)
    (h3 : 0 ≤ env.write_res (s.trace ++ [evSetCurrent env, evSetVoltage env])
            CHARGER_ADDRESS 0x3F env.input_current) :
    (battery_charger_enable env s).1 = 0
    ∧ ((battery_charger_enable env s).2).charger_enabled = true
    ∧ ((battery_charger_enable env s).2).trace
        = s.trace ++ [evSetCurrent env, evSetVoltage env, evSetInput env, evOptEnable] := by
  have hc := (battery_charger_enable_char env s h).2.2.2.2 h1 h2 h3
  rw [hc]
  exact ⟨rfl, rfl, rfl⟩

theorem battery_charger_enable_unchecked_final_write_witness :
    envFailOpt.write_res
        (initState.trace
          ++ [evSetCurrent envFailOpt, evSetVoltage envFailOpt, evSetInput envFailOpt])
        CHARGER_ADDRESS 0x12 chargeOption0Enable < 0
    ∧ (battery_charger_enable envFailOpt initState).1 = 0
    ∧ ((battery_charger_enable envFailOpt initState).2).charger_enabled = true :=
  ⟨by decide,
   (battery_charger_enable_unchecked_final_write envFailOpt initState rfl
      (by decide) (by decide) (by decide)).1,
   (battery_charger_enable_unchecked_final_write envFailOpt initState rfl
      (by decide) (by decide) (by decide)).2.1⟩

/-! Section: Claim C10: no watchdog-armed write before the first completed enable -/

/-- One scheduler-visible operation of the module, as invoked from the EC
main loop and host interface. -/
inductive Op where
  | disableOp
  | enableOp
  | configureOp
  | eventOp
  | setStartOp (v : Int)
  | setStopOp (v : Int)
deriving DecidableEq

/-- Execute one operation for its state effect. -/
def step (env : Env) (s : State) : Op → State
  | Op.disableOp => (battery_charger_disable env s).2
  | Op.enableOp => (battery_charger_enable env s).2
  | Op.configureOp => (battery_charger_configure env s).2
  | Op.eventOp => battery_event env s
  | Op.setStartOp v => (battery_set_start_threshold s v).2
  | Op.setStopOp v => (battery_set_stop_threshold s v).2

/-- Execute a list of operations in order. -/
def run (env : Env) (s : State) : List Op → State
  | [] => s
  | op :: ops => run env (step env s op) ops

/-- The reachability invariant behind C10: as long as no enable has run to
completion (no watchdog-cleared ChargeOption0 write is in the trace), the
hardware-state flag is still clear and no watchdog-armed ChargeOption0
write has been issued either. -/
def battInv (s : State) : Prop :=
  evOptEnable ∉ s.trace → s.charger_enabled = false ∧ evOptDisable ∉ s.trace

instance (s : State) : Decidable (battInv s) := by
  unfold battInv
  infer_instance

theorem battery_charger_disable_inv (env : Env) (s : State) (h : battInv s) :
    battInv ((battery_charger_disable env s).2) := by
  intro hne
  obtain ⟨l, hl⟩ := battery_charger_disable_trace_extends env s
  have hs : evOptEnable ∉ s.trace := fun hmem =>
    hne (by rw [hl]; exact List.mem_append_left _ hmem)
  obtain ⟨hflag, hdis⟩ := h hs
  rw [battery_charger_disable_noop env s hflag]
  exact ⟨hflag, hdis⟩

theorem battery_charger_enable_inv (env : Env) (s : State) (h : battInv s) :
    battInv ((battery_charger_enable env s).2) := by
  intro hne
  obtain ⟨l, hl⟩ := battery_charger_enable_trace_extends env s
  have hs : evOptEnable ∉ s.trace := fun hmem =>
    hne (by rw [hl]; exact List.mem_append_left _ hmem)
  obtain ⟨hflag, hdis⟩ := h hs
  obtain ⟨c0, c1, c2, c3, c4⟩ := battery_charger_enable_char env s hflag
  by_cases h1 : env.write_res s.trace CHARGER_ADDRESS 0x14 env.charge_current < 0
  · rw [c1 h1]
    refine ⟨hflag, ?_⟩
    simp only [List.mem_append, List.mem_singleton, not_or]
    exact ⟨hdis, by simp [evOptDisable, evSetCurrent]⟩
  · by_cases h2 : env.write_res (s.trace ++ [evSetCurrent env]) CHARGER_ADDRESS 0x15
        env.charge_voltage < 0
    · rw [c2 (by omega) h2]
      refine ⟨hflag, ?_⟩
      simp only [List.mem_append, List.mem_cons, List.mem_singleton, not_or]
      exact ⟨hdis, by simp [evOptDisable, evSetCurrent],
        by simp [evOptDisable, evSetVoltage]⟩
    · by_cases h3 : env.write_res (s.trace ++ [evSetCurrent env, evSetVoltage env])
          CHARGER_ADDRESS 0x3F env.input_current < 0
      · rw [c3 (by omega) (by omega) h3]
        refine ⟨hflag, ?_⟩
        simp only [List.mem_append, List.mem_cons, List.mem_singleton, not_or]
        exact ⟨hdis, by simp [evOptDisable, evSetCurrent],
          by simp [evOptDisable, evSetVoltage], by simp [evOptDisable, evSetInput]⟩
      · rw [c4 (by omega) (by omega) (by omega)] at hne
        exfalso
        apply hne
        simp

theorem battery_charger_configure_inv (env : Env) (s : State) (h : battInv s) :
    battInv ((battery_charger_configure env s).2) := by
  rw [battery_charger_configure]
  split_ifs <;>
    first
      | exact battery_charger_enable_inv env _ h
      | exact battery_charger_disable_inv env _ h

theorem battery_event_inv (env : Env) (s : State) (h : battInv s) :
    battInv (battery_event env s) := by
  intro hne
  have hs : evOptEnable ∉ s.trace := fun hmem =>
    hne (by rw [battery_event_trace]; exact List.mem_append_left _ hmem)
  obtain ⟨hflag, hdis⟩ := h hs
  refine ⟨by rw [battery_event_charger_enabled]; exact hflag, ?_⟩
  rw [battery_event_trace]
  intro hmem
  rcases List.mem_append.1 hmem with hm | hm
  · exact hdis hm
  · exact absurd hm (by decide)

theorem battery_step_inv (env : Env) (op : Op) (s : State) (h : battInv s) :
    battInv (step env s op) := by
  cases op with
  | disableOp => exact battery_charger_disable_inv env s h
  | enableOp => exact battery_charger_enable_inv env s h
  | configureOp => exact battery_charger_configure_inv env s h
  | eventOp => exact battery_event_inv env s h
  | setStartOp v => exact h
  | setStopOp v => exact h

theorem battery_run_inv (env : Env) (ops : List Op) (s : State) (h : battInv s) :
    battInv (run env s ops) := by
  induction ops generalizing s with
  | nil => exact h
  | cons op ops ih => exact ih _ (battery_step_inv env op s h)

/-- C10: in every call of `battery_charger_enable` that passes its guard
(`charger_enabled = false`), the internal `battery_charger_disable` call
issues no bus writes and returns 0; and in every state reachable from the
startup state by any sequence of operations, as long as no enable has run
to completion (no watchdog-cleared ChargeOption0 write in the trace), the
flag is still false and no watchdog-armed safe-state write has ever been
issued — enable never actually re-forces a hardware baseline. -/
theorem battery_no_watchdog_before_enable (env : Env) (ops : List Op) (s : State) :
    (s.charger_enabled = false → battery_charger_disable env s = (0, s))
  ∧ (evOptEnable ∉ (run env initState ops).trace →
       (run env initState ops).charger_enabled = false
       ∧ evOptDisable ∉ (run env initState ops).trace) :=
  ⟨battery_charger_disable_noop env s,
   battery_run_inv env ops initState (by decide)⟩

theorem battery_no_watchdog_before_enable_witness :
    battery_charger_disable allOkEnv initState = (0, initState)
    ∧ ((run allOkEnv initState [Op.eventOp, Op.disableOp]).charger_enabled = false
       ∧ evOptDisable ∉ (run allOkEnv initState [Op.eventOp, Op.disableOp]).trace) :=
  ⟨(battery_no_watchdog_before_enable allOkEnv [Op.eventOp, Op.disableOp] initState).1 rfl,
   (battery_no_watchdog_before_enable allOkEnv [Op.eventOp, Op.disableOp] initState).2
     (by decide)⟩

end Battery
